import Mathlib

/-!
Verification of the DNS/mDNS wire-format parser of the `dns_parser`
repository against its natural-language specification.

The definitions below are a shallow embedding of the Rust source.  The
parsing pipeline that the binary actually runs is the one in
`src/rdns.rs` (`main.rs` calls `rdns::net_mdns`, which calls
`rdns::parse`); the label/name/type/class level functions appear with
identical bodies in `src/shared.rs`, so each embedded definition cites
both places where applicable.  Conventions of the embedding:

* Rust byte slices `&[u8]` become `List Nat`; all arithmetic is on `Nat`
  with the exact masks of the source (`&`, `<<`, `|` become `Nat.land`,
  `<<<`, `|||`).  The bytes of real datagrams are < 256, and every
  bit-level operation of the source is reproduced literally, so no
  modular reduction is needed.
* Rust `String` values produced by `std::str::from_utf8(..).to_owned()`
  are represented by their byte sequence (`List Nat`): the conversion
  validates and copies the bytes without changing them.
* Fallible Rust functions returning `Result<T, ParseError>` become
  `Except ParseError T`.  Code that can additionally abort through an
  out-of-bounds slice index (a Rust panic) returns `PResult T`, whose
  `panicked` constructor marks the abort.
* The source's `parse_name` loop terminates because its index strictly
  grows by each label's size; the embedding makes that measure explicit
  as a fuel argument initialised with the slice length, and
  `parse_name_go_fuel_ext` proves the fuel never matters once it is at
  least the slice length.
-/

deriving instance DecidableEq for Except

namespace Dns

/-- Parse error type from `src/shared.rs` lines 1-7 (used verbatim by
`src/rdns.rs` through `use crate::shared::ParseError`). -/
inductive ParseError
  | HeaderError (msg : String)
  | QueryLabelError (msg : String)
  | QueryError (msg : String)
  | ResourceRecordError (msg : String)
deriving DecidableEq

/-- Name label from `src/rdns.rs` lines 66-70 (identical to `Label` in
`src/shared.rs` lines 19-23).  `Value offset content` is a length label
(`content = none` is the root label); `Pointer offset target` is a
compression pointer.  The label's `String` payload is represented by its
bytes. -/
inductive Label
  | Value (offset : Nat) (content : Option (List Nat))
  | Pointer (offset : Nat) (target : Nat)
deriving DecidableEq

/-- `Label::size` from `src/rdns.rs` lines 72-80 (= `src/shared.rs`
lines 35-43). -/
def Label.size : Label → Nat
  | .Value _ (some l) => l.length + 1
  | .Value _ none => 1
  | .Pointer _ _ => 2

/-- `Class` from `src/rdns.rs` lines 50-57 (= `src/shared.rs` 45-52). -/
inductive Class
  | Invalid
  | IN
  | CS
  | CH
  | HS
deriving DecidableEq

/-- `Type` from `src/rdns.rs` lines 20-39 (= `src/shared.rs` 54-73).
Named `DnsType` because `Type` is reserved in Lean. -/
inductive DnsType
  | Invalid
  | A
  | NS
  | MD
  | MF
  | CNAME
  | SOA
  | MB
  | MG
  | MR
  | NULL
  | WKS
  | PTR
  | HINFO
  | MINFO
  | MX
  | TXT
deriving DecidableEq

/-- `QType` from `src/rdns.rs` lines 41-48 (= `src/query.rs` 6-13).  The
source names the first constructor `Type`; it is `Typ` here because
`Type` is reserved in Lean. -/
inductive QType
  | Typ (t : DnsType)
  | AXFR
  | MAILB
  | MAILA
  | Any
deriving DecidableEq

/-- `QClass` from `src/rdns.rs` lines 82-86 (= `src/query.rs` 15-19). -/
inductive QClass
  | Any
  | Class (c : Class)
deriving DecidableEq

/-- `QuestionResponseType` from `src/rdns.rs` lines 96-100
(= `src/query.rs` 37-41). -/
inductive QuestionResponseType
  | QU
  | QM
deriving DecidableEq

/-- `Query` from `src/rdns.rs` lines 88-94 (= `src/query.rs` 21-27). -/
structure Query where
  values : List Label
  q_response_type : QuestionResponseType
  q_type : QType
  q_class : QClass
deriving DecidableEq

/-- `Query::size` from `src/rdns.rs` lines 144-154 (= `src/query.rs`
55-65): fold of the label sizes over the initial
`q_type_size + q_class_size = 4`. -/
def Query.size (q : Query) : Nat :=
  q.values.foldl (fun sum s => sum + s.size) (2 + 2)

/-- Result of code that may abort with a Rust panic (an out-of-bounds
slice index) in addition to returning `Result`.  `panicked` marks the
abort. -/
inductive PResult (α : Type)
  | panicked
  | err (e : ParseError)
  | ok (a : α)
deriving DecidableEq

/-- Sequencing of `PResult` computations: panics and errors
propagate. -/
def PResult.bind : PResult α → (α → PResult β) → PResult β
  | .panicked, _ => .panicked
  | .err e, _ => .err e
  | .ok a, f => f a

/-- Lift the result of panic-free code into `PResult`. -/
def liftE : Except ParseError α → PResult α
  | .error e => .err e
  | .ok a => .ok a

/-- Rust `&data[i..]`: the suffix from `i`, a panic when `i` exceeds the
slice length. -/
def sliceFrom (i : Nat) (data : List Nat) : PResult (List Nat) :=
  if i ≤ data.length then .ok (data.drop i) else .panicked

/-- Rust `&data[a..b]`: a panic unless `a ≤ b ≤ len`. -/
def sliceRange (a b : Nat) (data : List Nat) : PResult (List Nat) :=
  if a ≤ b ∧ b ≤ data.length then .ok ((data.drop a).take (b - a)) else .panicked

/-- Rust `data[i]`: the byte at `i`, a panic when out of bounds. -/
def getByte (data : List Nat) (i : Nat) : PResult Nat :=
  if h : i < data.length then .ok (data.get ⟨i, h⟩) else .panicked

/-- UTF-8 validation exactly as Rust's `std::str::from_utf8` performs
it: `none` means the bytes are valid; `some (valid_up_to, error_len)`
reports the index of the first invalid sequence and, unless the input
ended mid-sequence, how many bytes of it were examined.  The accepted
ranges per leading byte are those of `core::str::validations`. -/
def utf8Go (i : Nat) : List Nat → Option (Nat × Option Nat)
  | [] => none
  | b :: rest =>
    if b < 0x80 then utf8Go (i + 1) rest
    else if b < 0xC2 then some (i, some 1)
    else if b ≤ 0xDF then
      match rest with
      | [] => some (i, none)
      | c :: rest2 =>
        if 0x80 ≤ c ∧ c ≤ 0xBF then utf8Go (i + 2) rest2 else some (i, some 1)
    else if b ≤ 0xEF then
      match rest with
      | [] => some (i, none)
      | c :: rest2 =>
        if (if b = 0xE0 then 0xA0 ≤ c ∧ c ≤ 0xBF
            else if b = 0xED then 0x80 ≤ c ∧ c ≤ 0x9F
            else 0x80 ≤ c ∧ c ≤ 0xBF) then
          match rest2 with
          | [] => some (i, none)
          | d :: rest3 =>
            if 0x80 ≤ d ∧ d ≤ 0xBF then utf8Go (i + 3) rest3 else some (i, some 2)
        else some (i, some 1)
    else if b ≤ 0xF4 then
      match rest with
      | [] => some (i, none)
      | c :: rest2 =>
        if (if b = 0xF0 then 0x90 ≤ c ∧ c ≤ 0xBF
            else if b = 0xF4 then 0x80 ≤ c ∧ c ≤ 0x8F
            else 0x80 ≤ c ∧ c ≤ 0xBF) then
          match rest2 with
          | [] => some (i, none)
          | d :: rest3 =>
            if 0x80 ≤ d ∧ d ≤ 0xBF then
              match rest3 with
              | [] => some (i, none)
              | e :: rest4 =>
                if 0x80 ≤ e ∧ e ≤ 0xBF then utf8Go (i + 4) rest4 else some (i, some 3)
            else some (i, some 2)
        else some (i, some 1)
    else some (i, some 1)

/-- The `Display` rendering of Rust's `Utf8Error`, used by
`parse_label_value` through `.map_err(|e| ... e.to_string())`. -/
def utf8ErrString : Nat × Option Nat → String
  | (i, some n) =>
    "invalid utf-8 sequence of " ++ toString n ++ " bytes from index " ++ toString i
  | (i, none) => "incomplete utf-8 byte sequence from index " ++ toString i

/-- `parse_label_value` from `src/rdns.rs` lines 535-572
(= `src/shared.rs` lines 188-225): a length label.  The byte-count must
be 1..=63 and available; the bytes must contain no zero and be valid
UTF-8. -/
def parse_label_value (current_offset : Nat) (data : List Nat) :
    Except ParseError Label :=
  match data with
  | [] => .error (.QueryLabelError "Data is zero length")
  | count :: rest =>
    if count = 0 then .ok (.Value current_offset none)
    else if 63 < count then .error (.QueryLabelError "Count exceeds limit of 63")
    else if rest.length < count then
      .error (.QueryLabelError "Wrong label count. Count would overflow data")
    else
      let label_data := rest.take count
      if label_data.contains 0 then
        .error (.QueryLabelError "Zero encountered before end of label")
      else
        match utf8Go 0 label_data with
        | none => .ok (.Value current_offset (some label_data))
        | some e => .error (.QueryLabelError (utf8ErrString e))

/-- `parse_label_pointer` from `src/rdns.rs` lines 574-582
(= `src/shared.rs` lines 227-235): a compression pointer.  The target is
`(!0b11000000 & data[0]) << 8 | data[1]`; no comparison with the
pointer's own offset is made. -/
def parse_label_pointer (current_offset : Nat) (data : List Nat) :
    Except ParseError Label :=
  match data with
  | b0 :: b1 :: _ => .ok (.Pointer current_offset ((Nat.land 63 b0) <<< 8 ||| b1))
  | _ =>
    .error (.QueryLabelError "Trying to parse pointer label, but data is not long enough")

/-- The loop of `parse_name` (`src/rdns.rs` lines 243-271 =
`src/shared.rs` lines 300-328).  The list argument is the source's
`&data[index..]`; the empty list is the source's
`data.len() <= index` check.  The fuel argument makes the source's
termination measure explicit (the index strictly grows each iteration);
`parse_name_go_fuel_ext` below shows any fuel ≥ the slice length gives
the same result, so the out-of-fuel branch is unreachable from
`parse_name`. -/
def parse_name_go : Nat → Nat → List Nat → Except ParseError (List Label)
  | _, _, [] =>
    .error (.QueryLabelError "Index going out of bounds when parsing query values")
  | 0, _, _ :: _ =>
    .error (.QueryLabelError "Index going out of bounds when parsing query values")
  | fuel + 1, current_offset, b :: tl =>
    let label_type := Nat.land 192 b
    let labelR : Except ParseError Label :=
      if label_type = 192 then parse_label_pointer current_offset (b :: tl)
      else if label_type = 0 then parse_label_value current_offset (b :: tl)
      else .error (.QueryLabelError ("Unknown label type: " ++ toString label_type))
    match labelR with
    | .error e => .error e
    | .ok label =>
      match label with
      | .Pointer o p => .ok [.Pointer o p]
      | .Value o none => .ok [.Value o none]
      | .Value o (some l) =>
        match parse_name_go fuel (current_offset + (l.length + 1))
            ((b :: tl).drop (l.length + 1)) with
        | .error e => .error e
        | .ok rest => .ok (.Value o (some l) :: rest)

/-- `parse_name` from `src/rdns.rs` lines 232-272 (= `src/shared.rs`
lines 289-329): scan labels from the start of `data`, stopping at the
first pointer label or root label.  Pointers are never followed here. -/
def parse_name (start_offset : Nat) (data : List Nat) :
    Except ParseError (List Label) :=
  if data.length = 0 then
    .error (.QueryLabelError "Failed to parse query values, zero length data")
  else parse_name_go data.length start_offset data

/-- Total resolved size of a label sequence: the sum of the on-wire
label sizes (each length label costs its byte count plus one, the root
byte costs one, a pointer costs two). -/
def nameSize (labels : List Label) : Nat :=
  (labels.map Label.size).sum

/-- A terminal label ends a name scan: a pointer or the root label. -/
def Label.isTerminal : Label → Bool
  | .Pointer _ _ => true
  | .Value _ none => true
  | .Value _ (some _) => false

/-- Discriminator used to state that a result is a `QueryLabelError`. -/
def isQueryLabelError : Except ParseError (List Label) → Bool
  | .error (.QueryLabelError _) => true
  | _ => false

/-- `ResponseCode` from `src/header.rs` lines 10-19. -/
inductive ResponseCode
  | NoError
  | FormatError
  | ServerFailure
  | NameError
  | NotImplemented
  | Refused
  | Other
deriving DecidableEq

/-- `RecursionDesired` from `src/header.rs` lines 21-25. -/
inductive RecursionDesired
  | RecursionDesired
  | RecursionNotDesired
deriving DecidableEq

/-- `QueryOrResponse` from `src/header.rs` lines 27-31. -/
inductive QueryOrResponse
  | Query
  | Response
deriving DecidableEq

/-- `RA` from `src/header.rs` lines 33-37. -/
inductive RA
  | RecursionAvailable
  | RecursionNotAvailable
deriving DecidableEq

/-- `Truncation` from `src/header.rs` lines 39-43. -/
inductive Truncation
  | NotTruncated
  | Truncated
deriving DecidableEq

/-- `AuthoritativeAnswer` from `src/header.rs` lines 45-49. -/
inductive AuthoritativeAnswer
  | NotAuthoritative
  | Authoritative
deriving DecidableEq

/-- `OperationCode` from `src/header.rs` lines 51-57. -/
inductive OperationCode
  | Query
  | InverseQuery
  | Status
  | Other
deriving DecidableEq

/-- `Header` from `src/header.rs` lines 59-76.  `src/rdns.rs` refers to
the four count fields as `qd_count`, `an_count`, `ns_count` and
`ar_count`; they are the same four big-endian counts. -/
structure Header where
  id : Nat
  query_or_response : QueryOrResponse
  operation_code : OperationCode
  operation_code_value : Nat
  authoritative_answer : AuthoritativeAnswer
  truncation : Truncation
  recursion_desired : RecursionDesired
  recursion_available : RA
  z : Nat
  response_code : ResponseCode
  response_code_value : Nat
  question_count : Nat
  answer_count : Nat
  name_server_count : Nat
  additional_count : Nat
deriving DecidableEq

/-- Byte of the source's `RawHeader` (a 12-byte array, so the source's
indexing is always in bounds; `parse_header` only builds 12-byte
headers). -/
def hb (h : List Nat) (i : Nat) : Nat := h.getD i 0

/-- `parse_header_r_code` from `src/header.rs` lines 107-119. -/
def parse_header_r_code (h : List Nat) : ResponseCode :=
  match Nat.land 15 (hb h 3) with
  | 0 => .NoError
  | 1 => .FormatError
  | 2 => .ServerFailure
  | 3 => .NameError
  | 4 => .NotImplemented
  | 5 => .Refused
  | _ => .Other

/-- `parse_header_response_code_value` from `src/header.rs` 121-124. -/
def parse_header_response_code_value (h : List Nat) : Nat :=
  Nat.land 15 (hb h 3)

/-- `parse_header_qd_count` from `src/header.rs` lines 126-128. -/
def parse_header_qd_count (h : List Nat) : Nat :=
  (hb h 4) <<< 8 ||| hb h 5

/-- `parse_header_an_count` from `src/header.rs` lines 130-132. -/
def parse_header_an_count (h : List Nat) : Nat :=
  (hb h 6) <<< 8 ||| hb h 7

/-- `parse_header_ns_count` from `src/header.rs` lines 134-136. -/
def parse_header_ns_count (h : List Nat) : Nat :=
  (hb h 8) <<< 8 ||| hb h 9

/-- `parse_header_ar_count` from `src/header.rs` lines 138-140. -/
def parse_header_ar_count (h : List Nat) : Nat :=
  (hb h 10) <<< 8 ||| hb h 11

/-- `parse_header_z` from `src/header.rs` lines 142-145. -/
def parse_header_z (h : List Nat) : Nat :=
  (Nat.land 112 (hb h 3)) >>> 4

/-- `parse_header_recursion_available` from `src/header.rs` 147-154. -/
def parse_header_recursion_available (h : List Nat) : RA :=
  if (Nat.land 128 (hb h 3)) >>> 7 = 1 then .RecursionAvailable
  else .RecursionNotAvailable

/-- `parse_header_recursion_desired` from `src/header.rs` 156-163. -/
def parse_header_recursion_desired (h : List Nat) : RecursionDesired :=
  if Nat.land 1 (hb h 2) = 1 then .RecursionDesired else .RecursionNotDesired

/-- `parse_header_message_id` from `src/header.rs` lines 165-167. -/
def parse_header_message_id (h : List Nat) : Nat :=
  (hb h 0) <<< 8 ||| hb h 1

/-- `parse_header_query_or_response` from `src/header.rs` 169-175. -/
def parse_header_query_or_response (h : List Nat) : QueryOrResponse :=
  if (hb h 2) >>> 7 = 1 then .Response else .Query

/-- `parse_header_op_code` from `src/header.rs` lines 177-186. -/
def parse_header_op_code (h : List Nat) : OperationCode :=
  match (Nat.land 120 (hb h 2)) >>> 3 with
  | 0 => .Query
  | 1 => .InverseQuery
  | 2 => .Status
  | _ => .Other

/-- `parse_header_op_code_value` from `src/header.rs` lines 188-191. -/
def parse_header_op_code_value (h : List Nat) : Nat :=
  (Nat.land 120 (hb h 2)) >>> 3

/-- `parse_header_authoritative_answer` from `src/header.rs` 193-200. -/
def parse_header_authoritative_answer (h : List Nat) : AuthoritativeAnswer :=
  if (Nat.land 4 (hb h 2)) >>> 2 = 1 then .Authoritative else .NotAuthoritative

/-- `parse_header_truncated` from `src/header.rs` lines 202-209. -/
def parse_header_truncated (h : List Nat) : Truncation :=
  if (Nat.land 2 (hb h 2)) >>> 1 = 1 then .Truncated else .NotTruncated

/-- `parse_header` from `src/header.rs` lines 78-105: fails when fewer
than 12 bytes are available, otherwise decodes the copied 12-byte
header. -/
def parse_header (data : List Nat) : Except ParseError Header :=
  if data.length < 12 then .error (.HeaderError "Data is smaller than header")
  else
    let header := data.take 12
    .ok
      { id := parse_header_message_id header
        query_or_response := parse_header_query_or_response header
        operation_code := parse_header_op_code header
        operation_code_value := parse_header_op_code_value header
        authoritative_answer := parse_header_authoritative_answer header
        truncation := parse_header_truncated header
        recursion_desired := parse_header_recursion_desired header
        recursion_available := parse_header_recursion_available header
        z := parse_header_z header
        response_code := parse_header_r_code header
        response_code_value := parse_header_response_code_value header
        question_count := parse_header_qd_count header
        answer_count := parse_header_an_count header
        name_server_count := parse_header_ns_count header
        additional_count := parse_header_ar_count header }

/-- `parse_class` from `src/rdns.rs` lines 333-342 (= `src/shared.rs`
lines 75-84): the full 16-bit big-endian class value, no bit split. -/
def parse_class (b0 b1 : Nat) : Class :=
  match b0 <<< 8 ||| b1 with
  | 1 => .IN
  | 2 => .CS
  | 3 => .CH
  | 4 => .HS
  | _ => .Invalid

/-- `parse_type` from `src/rdns.rs` lines 352-373 (= `src/shared.rs`
lines 86-107). -/
def parse_type (b0 b1 : Nat) : DnsType :=
  match b0 <<< 8 ||| b1 with
  | 1 => .A
  | 2 => .NS
  | 3 => .MD
  | 4 => .MF
  | 5 => .CNAME
  | 6 => .SOA
  | 7 => .MB
  | 8 => .MG
  | 9 => .MR
  | 10 => .NULL
  | 11 => .WKS
  | 12 => .PTR
  | 13 => .HINFO
  | 14 => .MINFO
  | 15 => .MX
  | 16 => .TXT
  | _ => .Invalid

/-- `parse_q_class` from `src/rdns.rs` lines 344-350 (= `src/query.rs`
lines 119-125): 255 is ANY, anything else goes through `parse_class`
unmasked. -/
def parse_q_class (b0 b1 : Nat) : QClass :=
  if b0 <<< 8 ||| b1 = 255 then .Any else .Class (parse_class b0 b1)

/-- `parse_q_response_type` from `src/rdns.rs` lines 375-380
(= `src/query.rs` lines 127-132): the QU/QM flag is the high bit of the
byte handed to it. -/
def parse_q_response_type (b : Nat) : QuestionResponseType :=
  if Nat.land 128 b = 128 then .QU else .QM

/-- `parse_q_type` from `src/rdns.rs` lines 382-395 (= `src/query.rs`
lines 134-147).  Note: the QU/QM flag is extracted from the first byte
of the TYPE field, and the type value from its remaining 15 bits; the
fallback calls `parse_type` with the unmasked bytes. -/
def parse_q_type (b0 b1 : Nat) : QuestionResponseType × QType :=
  let q_type := (Nat.land 127 b0) <<< 8 ||| b1
  (parse_q_response_type b0,
    match q_type with
    | 252 => .AXFR
    | 253 => .MAILB
    | 254 => .MAILA
    | 255 => .Any
    | _ => .Typ (parse_type b0 b1))

/-- `parse_query` from `src/rdns.rs` lines 307-331 (= `src/query.rs`
lines 67-91): name, then 2 TYPE bytes and 2 CLASS bytes at the offset
the name consumed.  The reads are guarded by the explicit
`data.len() < offset + 4` check, so indexing uses the safe default
accessor. -/
def parse_query (current_offset : Nat) (data : List Nat) :
    Except ParseError Query :=
  match parse_name current_offset data with
  | .error e => .error e
  | .ok values =>
    let offset := values.foldl (fun sum l => sum + l.size) 0
    if data.length < offset + 4 then
      .error (.QueryError "Data not long enough for query")
    else
      let tq := parse_q_type (data.getD offset 0) (data.getD (offset + 1) 0)
      let q_class := parse_q_class (data.getD (offset + 2) 0) (data.getD (offset + 3) 0)
      .ok { values := values, q_response_type := tq.1, q_type := tq.2,
            q_class := q_class }

/-- The loop of `parse_queries` (`src/rdns.rs` lines 443-452 =
`src/query.rs` lines 171-180), recursing on the remaining count: each
iteration parses one query from `&data[previous_index..]` and advances
both the index and the offset by the query's size. -/
def parse_queries_go (data : List Nat) :
    Nat → Nat → Nat → PResult (List Query)
  | 0, _, _ => .ok []
  | n + 1, previous_index, current_offset =>
    match sliceFrom previous_index data with
    | .panicked => .panicked
    | .err e => .err e
    | .ok sliced =>
      match parse_query current_offset sliced with
      | .error e => .err e
      | .ok query =>
        match parse_queries_go data n (previous_index + query.size)
            (current_offset + query.size) with
        | .panicked => .panicked
        | .err e => .err e
        | .ok rest => .ok (query :: rest)

/-- `parse_queries` from `src/rdns.rs` lines 438-453 (= `src/query.rs`
lines 166-181): parse `qd_count` (named `question_count` in
`src/header.rs`) queries. -/
def parse_queries (start_offset : Nat) (header : Header) (data : List Nat) :
    PResult (List Query) :=
  parse_queries_go data header.question_count 0 start_offset

/-- `ResourceRecordType` from `src/rdns.rs` lines 59-64. -/
inductive ResourceRecordType
  | A
  | AAAA
  | Other (n : Nat)
deriving DecidableEq

/-- `ResourceRecordData` from `src/rdns.rs` lines 102-106.  The
`Ipv4Addr` payload is kept as its four octets. -/
inductive ResourceRecordData
  | A (o0 o1 o2 o3 : Nat)
  | Other (v : List Nat)
deriving DecidableEq

/-- `ResourceRecordData::size` from `src/rdns.rs` lines 108-115. -/
def ResourceRecordData.size : ResourceRecordData → Nat
  | .A _ _ _ _ => 4
  | .Other v => v.length

/-- `ResourceRecord` from `src/rdns.rs` lines 117-125. -/
structure ResourceRecord where
  name : List Label
  resource_record_type : ResourceRecordType
  class_ : Class
  ttl : Nat
  resource_record_data_length : Nat
  resource_record_data : ResourceRecordData
deriving DecidableEq

/-- `ResourceRecord::size` from `src/rdns.rs` lines 127-142. -/
def ResourceRecord.size (r : ResourceRecord) : Nat :=
  let name_size := r.name.foldl (fun sum l => sum + l.size) 0
  r.resource_record_data.size + 2 + 2 + 4 + 2 + name_size

/-- `parse_resource_record_data_other` from `src/rdns.rs` lines 191-198:
the raw `resource_data_length` bytes (`&data[0..len]`, in bounds thanks
to the caller's length check). -/
def parse_resource_record_data_other (resource_data_length : Nat)
    (data : List Nat) : Except ParseError ResourceRecordData :=
  .ok (.Other (data.take resource_data_length))

/-- `parse_resource_record_data_ip_a` from `src/rdns.rs` lines 200-213:
four bytes of IPv4 address after its own length check. -/
def parse_resource_record_data_ip_a (_resource_data_length : Nat)
    (data : List Nat) : Except ParseError ResourceRecordData :=
  if data.length < 4 then
    .error (.ResourceRecordError "Data would overflow when parsing IPv4 resource")
  else .ok (.A (data.getD 0 0) (data.getD 1 0) (data.getD 2 0) (data.getD 3 0))

/-- `parse_resource_record_data` from `src/rdns.rs` lines 173-189:
length check then dispatch on the record type (only A is special in
this pipeline). -/
def parse_resource_record_data (t : ResourceRecordType) (_c : Class)
    (resource_data_length : Nat) (data : List Nat) :
    Except ParseError ResourceRecordData :=
  if data.length < resource_data_length then
    .error (.ResourceRecordError "Data would overflow parsing resource record data")
  else
    match t with
    | .A => parse_resource_record_data_ip_a resource_data_length data
    | _ => parse_resource_record_data_other resource_data_length data

/-- `parse_resource_data_length` from `src/rdns.rs` lines 215-217. -/
def parse_resource_data_length (b0 b1 : Nat) : Nat :=
  b0 <<< 8 ||| b1

/-- `parse_ttl` from `src/rdns.rs` lines 219-221. -/
def parse_ttl (b0 b1 b2 b3 : Nat) : Nat :=
  b0 <<< 24 ||| b1 <<< 16 ||| b2 <<< 8 ||| b3

/-- `parse_resource_record_type` from `src/rdns.rs` lines 223-230. -/
def parse_resource_record_type (b0 b1 : Nat) : ResourceRecordType :=
  match b0 <<< 8 ||| b1 with
  | 1 => .A
  | 28 => .AAAA
  | n => .Other n

/-- `parse_resource_record` from `src/rdns.rs` lines 455-492: name,
then TYPE, CLASS, TTL and RDLENGTH read by DIRECT INDEXING
`data[next_index] .. data[next_index + 9]` with no bounds check — each
read panics when the slice is too short — then the RDATA tail. -/
def parse_resource_record (start_offset : Nat) (data : List Nat) :
    PResult ResourceRecord :=
  match parse_name start_offset data with
  | .error e => .err e
  | .ok name =>
    let next_index := name.foldl (fun sum l => sum + l.size) 0
    PResult.bind (getByte data next_index) fun t0 =>
    PResult.bind (getByte data (next_index + 1)) fun t1 =>
    PResult.bind (getByte data (next_index + 2)) fun c0 =>
    PResult.bind (getByte data (next_index + 3)) fun c1 =>
    PResult.bind (getByte data (next_index + 4)) fun ttl0 =>
    PResult.bind (getByte data (next_index + 5)) fun ttl1 =>
    PResult.bind (getByte data (next_index + 6)) fun ttl2 =>
    PResult.bind (getByte data (next_index + 7)) fun ttl3 =>
    PResult.bind (getByte data (next_index + 8)) fun l0 =>
    PResult.bind (getByte data (next_index + 9)) fun l1 =>
    PResult.bind (sliceFrom (next_index + 10) data) fun rdata =>
    let resource_record_type := parse_resource_record_type t0 t1
    let resource_record_class := parse_class c0 c1
    let ttl := parse_ttl ttl0 ttl1 ttl2 ttl3
    let resource_record_data_length := parse_resource_data_length l0 l1
    match parse_resource_record_data resource_record_type resource_record_class
        resource_record_data_length rdata with
    | .error e => .err e
    | .ok rrdata =>
      .ok { name := name, resource_record_type := resource_record_type,
            class_ := resource_record_class, ttl := ttl,
            resource_record_data_length := resource_record_data_length,
            resource_record_data := rrdata }

/-- The loop of `parse_resource_records` (`src/rdns.rs` lines 499-508),
recursing on the remaining count. -/
def parse_resource_records_go (data : List Nat) :
    Nat → Nat → Nat → PResult (List ResourceRecord)
  | 0, _, _ => .ok []
  | n + 1, previous_index, current_offset =>
    match sliceFrom previous_index data with
    | .panicked => .panicked
    | .err e => .err e
    | .ok sliced =>
      match parse_resource_record current_offset sliced with
      | .panicked => .panicked
      | .err e => .err e
      | .ok answer =>
        match parse_resource_records_go data n (previous_index + answer.size)
            (current_offset + answer.size) with
        | .panicked => .panicked
        | .err e => .err e
        | .ok rest => .ok (answer :: rest)

/-- `parse_resource_records` from `src/rdns.rs` lines 494-509. -/
def parse_resource_records (start_offset count : Nat) (data : List Nat) :
    PResult (List ResourceRecord) :=
  parse_resource_records_go data count 0 start_offset

/-- `parse_additional_resource_records` from `src/rdns.rs` 511-517
(`ar_count` is `additional_count` in `src/header.rs`). -/
def parse_additional_resource_records (start_offset : Nat) (header : Header)
    (data : List Nat) : PResult (List ResourceRecord) :=
  parse_resource_records start_offset header.additional_count data

/-- `parse_name_servers` from `src/rdns.rs` lines 519-525 (`ns_count`
is `name_server_count` in `src/header.rs`). -/
def parse_name_servers (start_offset : Nat) (header : Header)
    (data : List Nat) : PResult (List ResourceRecord) :=
  parse_resource_records start_offset header.name_server_count data

/-- `parse_answers` from `src/rdns.rs` lines 527-533 (`an_count` is
`answer_count` in `src/header.rs`). -/
def parse_answers (start_offset : Nat) (header : Header)
    (data : List Nat) : PResult (List ResourceRecord) :=
  parse_resource_records start_offset header.answer_count data

/-- `Message` from `src/rdns.rs` lines 156-163. -/
structure Message where
  header : Header
  queries : List Query
  answers : List ResourceRecord
  name_servers : List ResourceRecord
  additional_records : List ResourceRecord
deriving DecidableEq

/-- `parse` from `src/rdns.rs` lines 274-305: header, then the four
sections, each section starting at the cumulative offset obtained by
folding the parsed items' sizes, with the datagram re-sliced at that
offset (`&data[offset..]` — a panic when the offset exceeds the
datagram length). -/
def parse (data : List Nat) : PResult Message :=
  PResult.bind (liftE (parse_header data)) fun header =>
  PResult.bind (sliceFrom 12 data) fun s1 =>
  PResult.bind (parse_queries 12 header s1) fun queries =>
  let queries_length := queries.foldl (fun sum q => sum + q.size) 12
  PResult.bind (sliceFrom queries_length data) fun s2 =>
  PResult.bind (parse_answers queries_length header s2) fun answers =>
  let answers_length := answers.foldl (fun sum a => sum + a.size) queries_length
  PResult.bind (sliceFrom answers_length data) fun s3 =>
  PResult.bind (parse_name_servers answers_length header s3) fun name_servers =>
  let name_server_resources_length :=
    name_servers.foldl (fun sum r => sum + r.size) answers_length
  PResult.bind (sliceFrom name_server_resources_length data) fun s4 =>
  PResult.bind (parse_additional_resource_records name_server_resources_length
      header s4) fun additional_records =>
  .ok { header := header, queries := queries, answers := answers,
        name_servers := name_servers, additional_records := additional_records }

end Dns

namespace Rr

/-- `ResourceRecordData` from `src/resource_record.rs` lines 27-35 (the
split-module iteration of the parser).  `Ipv4Addr`/`Ipv6Addr` payloads
are kept as their numeric components; `String` payloads (produced by
`to_ascii`, which maps every byte to the char with that code point) are
kept as the byte sequence. -/
inductive ResourceRecordData
  | A (o0 o1 o2 o3 : Nat)
  | AAAA (h0 h1 h2 h3 h4 h5 h6 h7 : Nat)
  | SRV (priority weight port : Nat)
  | PTR (name : List Nat)
  | TXT (s : List Nat)
  | Other (v : List Nat)
deriving DecidableEq

/-- `parse_resource_record_data_txt` from `src/resource_record.rs`
lines 123-131: the whole RDATA region
`&data[offset..offset + resource_record_length]` is turned into ONE
string by `to_ascii` (byte → char), length bytes included; the slice
panics when the region overruns the data. -/
def parse_resource_record_data_txt (offset resource_record_length : Nat)
    (data : List Nat) : Dns.PResult ResourceRecordData :=
  Dns.PResult.bind (Dns.sliceRange offset (offset + resource_record_length) data)
    fun region => .ok (.TXT region)

end Rr

/-- Modelled from the spec: "the RDATA region is a sequence of
<length-byte, bytes> character-strings totalling exactly RDLENGTH".
Splits the first `rdlength` bytes of `data` into the list of
character-strings, `none` when a declared string overruns the region.
The fuel equals `rdlength`, enough because every string consumes at
least its length byte. -/
def specTxtGo : Nat → List Nat → Option (List (List Nat))
  | _, [] => some []
  | 0, _ :: _ => none
  | fuel + 1, n :: rest =>
    if n ≤ rest.length then
      (specTxtGo fuel (rest.drop n)).map (fun tail => rest.take n :: tail)
    else none

/-- Modelled from the spec (§4.7 TXT): the character-strings of a TXT
RDATA region of length `rdlength`. -/
def specTxtCharacterStrings (rdlength : Nat) (data : List Nat) :
    Option (List (List Nat)) :=
  specTxtGo rdlength (data.take rdlength)

namespace Dns

/-- Characterisation of a successful `parse_label_value`: the label is a
value label at the given offset; the root label costs one byte, and a
non-empty label holds its declared 1..=63 bytes, all available in the
input. -/
theorem parse_label_value_ok {off : Nat} {d : List Nat} {lab : Label}
    (h : parse_label_value off d = .ok lab) :
    1 ≤ lab.size ∧ lab.size ≤ d.length ∧
      (lab = .Value off none ∨
        ∃ b tl v, d = b :: tl ∧ lab = .Value off (some v) ∧ v = tl.take b ∧
          1 ≤ b ∧ b ≤ 63 ∧ b ≤ tl.length ∧ v.length = b) := by
  cases d with
  | nil => simp [parse_label_value] at h
  | cons b tl =>
    simp only [parse_label_value] at h
    by_cases hb0 : b = 0
    · rw [if_pos hb0] at h
      injection h with h
      subst h
      refine ⟨by simp [Label.size], by simp [Label.size], Or.inl rfl⟩
    · rw [if_neg hb0] at h
      by_cases h63 : 63 < b
      · rw [if_pos h63] at h; cases h
      · rw [if_neg h63] at h
        by_cases hlen : tl.length < b
        · rw [if_pos hlen] at h; cases h
        · rw [if_neg hlen] at h
          by_cases hz : (tl.take b).contains 0
          · rw [if_pos hz] at h; cases h
          · rw [if_neg hz] at h
            cases hu : utf8Go 0 (tl.take b) with
            | none =>
              rw [hu] at h
              injection h with h
              subst h
              have hvlen : (tl.take b).length = b := by
                have := List.length_take b tl
                omega
              refine ⟨by simp [Label.size], ?_, Or.inr ?_⟩
              · simp only [Label.size, hvlen, List.length_cons]
                omega
              · exact ⟨b, tl, tl.take b, rfl, rfl, rfl, by omega, by omega,
                  by omega, hvlen⟩
            | some e => rw [hu] at h; cases h

/-- Characterisation of a successful `parse_label_pointer`: at least two
bytes were available and the result is a pointer label at the given
offset. -/
theorem parse_label_pointer_ok {off : Nat} {d : List Nat} {lab : Label}
    (h : parse_label_pointer off d = .ok lab) :
    2 ≤ d.length ∧ ∃ p, lab = .Pointer off p := by
  match d with
  | [] => simp [parse_label_pointer] at h
  | [b0] => simp [parse_label_pointer] at h
  | b0 :: b1 :: tl =>
    injection h with h
    subst h
    exact ⟨by simp, _, rfl⟩

/-- Shape of every successful name scan: the label list is non-empty,
only its final label is terminal (a pointer or the root), and the
labels' sizes sum to at most the length of the scanned slice.  Every
non-root value label carries 1..=63 bytes. -/
theorem parse_name_go_spec (fuel : Nat) :
    ∀ (off : Nat) (d : List Nat) (labels : List Label),
      parse_name_go fuel off d = .ok labels →
      labels ≠ [] ∧
      (∀ l ∈ labels.dropLast, l.isTerminal = false) ∧
      (labels.getLastD (.Value 0 none)).isTerminal = true ∧
      nameSize labels ≤ d.length ∧
      (∀ o v, Label.Value o (some v) ∈ labels → 1 ≤ v.length ∧ v.length ≤ 63) := by
  induction fuel with
  | zero =>
    intro off d labels h
    cases d <;> simp [parse_name_go] at h
  | succ n ih =>
    intro off d labels h
    cases d with
    | nil => simp [parse_name_go] at h
    | cons b tl =>
      simp only [parse_name_go] at h
      by_cases h192 : Nat.land 192 b = 192
      · rw [if_pos h192] at h
        cases hp : parse_label_pointer off (b :: tl) with
        | error e => rw [hp] at h; simp at h
        | ok lab =>
          obtain ⟨hlen, p, rfl⟩ := parse_label_pointer_ok hp
          rw [hp] at h
          dsimp only at h
          injection h with h
          subst h
          refine ⟨by simp, by simp, by simp [List.getLastD, Label.isTerminal], ?_, ?_⟩
          · simpa [nameSize, Label.size] using hlen
          · intro o v hmem; simp at hmem
      · rw [if_neg h192] at h
        by_cases h0 : Nat.land 192 b = 0
        · rw [if_pos h0] at h
          cases hv : parse_label_value off (b :: tl) with
          | error e => rw [hv] at h; simp at h
          | ok lab =>
            obtain ⟨hsz1, hszle, hcase⟩ := parse_label_value_ok hv
            rw [hv] at h
            rcases hcase with rfl | ⟨bb, tll, v, hd, rfl, hvtake, hb1, hb63, hble, hvlen⟩
            · replace h : Except.ok [Label.Value off none] = Except.ok labels := h
              injection h with h
              subst h
              refine ⟨by simp, by simp, by simp [List.getLastD, Label.isTerminal], ?_, ?_⟩
              · simp [nameSize, Label.size]
              · intro o v hmem; simp at hmem
            · replace h :
                  (match parse_name_go n (off + (v.length + 1))
                      ((b :: tl).drop (v.length + 1)) with
                    | Except.error e => (Except.error e : Except ParseError (List Label))
                    | Except.ok rest => Except.ok (Label.Value off (some v) :: rest))
                    = Except.ok labels := h
              cases hr : parse_name_go n (off + (v.length + 1))
                  ((b :: tl).drop (v.length + 1)) with
              | error e => rw [hr] at h; simp at h
              | ok rest =>
                rw [hr] at h
                injection h with h
                subst h
                obtain ⟨hne, hinit, hlast, hsize, hcont⟩ :=
                  ih (off + (v.length + 1)) _ rest hr
                have hdroplen : ((b :: tl).drop (v.length + 1)).length
                    = (b :: tl).length - (v.length + 1) := List.length_drop _ _
                have hszle' : v.length + 1 ≤ (b :: tl).length := by
                  simpa [Label.size] using hszle
                refine ⟨by simp, ?_, ?_, ?_, ?_⟩
                · cases rest with
                  | nil => exact absurd rfl hne
                  | cons r rs =>
                    intro l hl
                    rcases List.mem_cons.mp (by simpa using hl) with rfl | hl'
                    · simp [Label.isTerminal]
                    · exact hinit l hl'
                · cases rest with
                  | nil => exact absurd rfl hne
                  | cons r rs =>
                    simpa [List.getLastD] using hlast
                · have : nameSize (Label.Value off (some v) :: rest)
                      = (v.length + 1) + nameSize rest := by
                    simp [nameSize, Label.size]
                  omega
                · intro o w hmem
                  rcases List.mem_cons.mp hmem with hw | hw
                  · injection hw with _ hw'
                    injection hw' with hw''
                    subst hw''
                    omega
                  · exact hcont o w hw
        · rw [if_neg h0] at h; cases h

/-- Fuel irrelevance for the name-scan loop: any fuel at least the
length of the scanned slice yields the same result — the loop of the
source terminates within `len(data)` iterations because its index
strictly grows at every non-terminal label. -/
theorem parse_name_go_fuel_ext (fuel1 : Nat) :
    ∀ (fuel2 off : Nat) (d : List Nat), d.length ≤ fuel1 → d.length ≤ fuel2 →
      parse_name_go fuel1 off d = parse_name_go fuel2 off d := by
  induction fuel1 with
  | zero =>
    intro fuel2 off d h1 h2
    have hd : d = [] := List.length_eq_zero.mp (Nat.le_zero.mp h1)
    subst hd
    cases fuel2 <;> simp [parse_name_go]
  | succ n ih =>
    intro fuel2 off d h1 h2
    cases d with
    | nil => cases fuel2 <;> simp [parse_name_go]
    | cons b tl =>
      cases fuel2 with
      | zero => simp at h2
      | succ m =>
        simp only [parse_name_go]
        by_cases h192 : Nat.land 192 b = 192
        · rw [if_pos h192]
          cases hp : parse_label_pointer off (b :: tl) with
          | error e => rfl
          | ok lab =>
            obtain ⟨hlen, p, rfl⟩ := parse_label_pointer_ok hp
            rfl
        · rw [if_neg h192]
          by_cases h0 : Nat.land 192 b = 0
          · rw [if_pos h0]
            cases hv : parse_label_value off (b :: tl) with
            | error e => rfl
            | ok lab =>
              obtain ⟨hsz1, hszle, hcase⟩ := parse_label_value_ok hv
              rcases hcase with rfl | ⟨bb, tll, v, hd, rfl, hvtake, hb1, hb63, hble, hvlen⟩
              · rfl
              · have hszle' : v.length + 1 ≤ (b :: tl).length := by
                  simpa [Label.size] using hszle
                have hdroplen : ((b :: tl).drop (v.length + 1)).length
                    = (b :: tl).length - (v.length + 1) := List.length_drop _ _
                show (match parse_name_go n (off + (v.length + 1))
                        ((b :: tl).drop (v.length + 1)) with
                      | Except.error e => (Except.error e : Except ParseError (List Label))
                      | Except.ok rest => Except.ok (Label.Value off (some v) :: rest))
                    = (match parse_name_go m (off + (v.length + 1))
                        ((b :: tl).drop (v.length + 1)) with
                      | Except.error e => (Except.error e : Except ParseError (List Label))
                      | Except.ok rest => Except.ok (Label.Value off (some v) :: rest))
                rw [ih m (off + (v.length + 1)) ((b :: tl).drop (v.length + 1))
                  (by simp at h1 ⊢; omega) (by simp at h2 ⊢; omega)]
          · rw [if_neg h0]

/-- Inversion of `PResult.bind` at a successful result. -/
theorem PResult.bind_ok {α β : Type} {x : PResult α} {f : α → PResult β} {b : β}
    (h : PResult.bind x f = .ok b) : ∃ a, x = .ok a ∧ f a = .ok b := by
  cases x with
  | panicked => cases h
  | err e => cases h
  | ok a => exact ⟨a, rfl, h⟩

/-- The question-section loop returns exactly as many queries as its
count argument. -/
theorem parse_queries_go_len (data : List Nat) (n : Nat) :
    ∀ (prev cur : Nat) (qs : List Query),
      parse_queries_go data n prev cur = .ok qs → qs.length = n := by
  induction n with
  | zero =>
    intro prev cur qs h
    simp only [parse_queries_go] at h
    injection h with h
    subst h
    rfl
  | succ k ih =>
    intro prev cur qs h
    simp only [parse_queries_go] at h
    cases hs : sliceFrom prev data with
    | panicked => rw [hs] at h; simp at h
    | err e => rw [hs] at h; simp at h
    | ok sliced =>
      rw [hs] at h
      replace h :
          (match parse_query cur sliced with
            | Except.error e => (PResult.err e : PResult (List Query))
            | Except.ok query =>
              match parse_queries_go data k (prev + query.size) (cur + query.size) with
              | PResult.panicked => PResult.panicked
              | PResult.err e => PResult.err e
              | PResult.ok rest => PResult.ok (query :: rest)) = PResult.ok qs := h
      cases hq : parse_query cur sliced with
      | error e => rw [hq] at h; simp at h
      | ok query =>
        rw [hq] at h
        replace h :
            (match parse_queries_go data k (prev + query.size) (cur + query.size) with
              | PResult.panicked => (PResult.panicked : PResult (List Query))
              | PResult.err e => PResult.err e
              | PResult.ok rest => PResult.ok (query :: rest)) = PResult.ok qs := h
        cases hr : parse_queries_go data k (prev + query.size) (cur + query.size) with
        | panicked => rw [hr] at h; simp at h
        | err e => rw [hr] at h; simp at h
        | ok rest =>
          rw [hr] at h
          replace h : PResult.ok (query :: rest) = PResult.ok qs := h
          injection h with h
          subst h
          simp [ih _ _ rest hr]

/-- The record-section loop returns exactly as many records as its
count argument. -/
theorem parse_resource_records_go_len (data : List Nat) (n : Nat) :
    ∀ (prev cur : Nat) (rs : List ResourceRecord),
      parse_resource_records_go data n prev cur = .ok rs → rs.length = n := by
  induction n with
  | zero =>
    intro prev cur rs h
    simp only [parse_resource_records_go] at h
    injection h with h
    subst h
    rfl
  | succ k ih =>
    intro prev cur rs h
    simp only [parse_resource_records_go] at h
    cases hs : sliceFrom prev data with
    | panicked => rw [hs] at h; simp at h
    | err e => rw [hs] at h; simp at h
    | ok sliced =>
      rw [hs] at h
      replace h :
          (match parse_resource_record cur sliced with
            | PResult.panicked => (PResult.panicked : PResult (List ResourceRecord))
            | PResult.err e => PResult.err e
            | PResult.ok answer =>
              match parse_resource_records_go data k (prev + answer.size)
                  (cur + answer.size) with
              | PResult.panicked => PResult.panicked
              | PResult.err e => PResult.err e
              | PResult.ok rest => PResult.ok (answer :: rest)) = PResult.ok rs := h
      cases hq : parse_resource_record cur sliced with
      | panicked => rw [hq] at h; simp at h
      | err e => rw [hq] at h; simp at h
      | ok answer =>
        rw [hq] at h
        replace h :
            (match parse_resource_records_go data k (prev + answer.size)
                (cur + answer.size) with
              | PResult.panicked => (PResult.panicked : PResult (List ResourceRecord))
              | PResult.err e => PResult.err e
              | PResult.ok rest => PResult.ok (answer :: rest)) = PResult.ok rs := h
        cases hr : parse_resource_records_go data k (prev + answer.size)
            (cur + answer.size) with
        | panicked => rw [hr] at h; simp at h
        | err e => rw [hr] at h; simp at h
        | ok rest =>
          rw [hr] at h
          replace h : PResult.ok (answer :: rest) = PResult.ok rs := h
          injection h with h
          subst h
          simp [ih _ _ rest hr]

end Dns


/-- Claim C1's failing input: a 12-byte header declaring ANCOUNT = 1
followed by a single root-label byte — the datagram ends before the
answer record's TYPE field. -/
def c1TruncatedRecordData : List Nat :=
  [0, 0, 0, 0, 0, 0, 0, 1, 0, 0, 0, 0, 0]

/-- C1: the claim states that `parse` is total on every datagram — it
never panics, and every slice index read while decoding a resource
record's TYPE, CLASS, TTL and RDLENGTH fields is in bounds or an `Err`
is returned.  The code contradicts this: `parse_resource_record` reads
`data[next_index] .. data[next_index + 9]` without any bounds check, so
on the 13-byte datagram above it indexes position 1 of a 1-byte slice
and panics instead of returning an error. -/
theorem c1_parse_aborts_on_truncated_resource_record :
    Dns.parse c1TruncatedRecordData = Dns.PResult.panicked := by decide

/-- Claim C2's input: the 45-byte Spotify-Connect mDNS query. -/
def spotifyConnectData : List Nat :=
  [0x00, 0x00, 0x00, 0x00, 0x00, 0x01, 0x00, 0x00, 0x00, 0x00, 0x00, 0x00,
   0x10, 0x5F, 0x73, 0x70, 0x6F, 0x74, 0x69, 0x66, 0x79, 0x2D, 0x63, 0x6F,
   0x6E, 0x6E, 0x65, 0x63, 0x74, 0x04, 0x5F, 0x74, 0x63, 0x70, 0x05, 0x6C,
   0x6F, 0x63, 0x61, 0x6C, 0x00, 0x00, 0x0C, 0x00, 0x01]

/-- The message claim C2 expects for `spotifyConnectData`: id 0, a
query, one question named "_spotify-connect" "_tcp" "local" plus the
root label, QTYPE PTR, QCLASS IN, QM (QU = false), no other
sections. -/
def spotifyConnectMessage : Dns.Message :=
  { header :=
      { id := 0, query_or_response := .Query, operation_code := .Query,
        operation_code_value := 0, authoritative_answer := .NotAuthoritative,
        truncation := .NotTruncated, recursion_desired := .RecursionNotDesired,
        recursion_available := .RecursionNotAvailable, z := 0,
        response_code := .NoError, response_code_value := 0,
        question_count := 1, answer_count := 0, name_server_count := 0,
        additional_count := 0 }
    queries :=
      [{ values :=
          [.Value 12 (some [0x5F, 0x73, 0x70, 0x6F, 0x74, 0x69, 0x66, 0x79,
            0x2D, 0x63, 0x6F, 0x6E, 0x6E, 0x65, 0x63, 0x74]),
           .Value 29 (some [0x5F, 0x74, 0x63, 0x70]),
           .Value 34 (some [0x6C, 0x6F, 0x63, 0x61, 0x6C]),
           .Value 40 none],
         q_response_type := .QM, q_type := .Typ .PTR,
         q_class := .Class .IN }]
    answers := [], name_servers := [], additional_records := [] }

/-- C2: parsing the 45-byte Spotify-Connect datagram yields exactly the
message of the claim — header id 0 and query flag, one question whose
name is the "_spotify-connect", "_tcp", "local" label sequence followed
by the root label, with QTYPE = PTR, QCLASS = IN, QU = false, and empty
answer, authority and additional sections. -/
theorem c2_parse_spotify_connect_query :
    Dns.parse spotifyConnectData = Dns.PResult.ok spotifyConnectMessage := by
  decide

/-- The 40-byte Googlecast query of claim C3: QTYPE field `00 0C`,
QCLASS field `80 01` (high bit set). -/
def googlecastData : List Nat :=
  [0x00, 0x00, 0x00, 0x00, 0x00, 0x01, 0x00, 0x00, 0x00, 0x00, 0x00, 0x00,
   0x0B, 0x5F, 0x67, 0x6F, 0x6F, 0x67, 0x6C, 0x65, 0x63, 0x61, 0x73, 0x74,
   0x04, 0x5F, 0x74, 0x63, 0x70, 0x05, 0x6C, 0x6F, 0x63, 0x61, 0x6C, 0x00,
   0x00, 0x0C, 0x80, 0x01]

/-- What the code actually produces for `googlecastData`: the class
bytes `80 01` decode through `parse_class` unmasked to `Invalid`, and
the QU/QM flag — taken from the TYPE field's first byte `00` — stays
QM. -/
def googlecastMessage : Dns.Message :=
  { header :=
      { id := 0, query_or_response := .Query, operation_code := .Query,
        operation_code_value := 0, authoritative_answer := .NotAuthoritative,
        truncation := .NotTruncated, recursion_desired := .RecursionNotDesired,
        recursion_available := .RecursionNotAvailable, z := 0,
        response_code := .NoError, response_code_value := 0,
        question_count := 1, answer_count := 0, name_server_count := 0,
        additional_count := 0 }
    queries :=
      [{ values :=
          [.Value 12 (some [0x5F, 0x67, 0x6F, 0x6F, 0x67, 0x6C, 0x65, 0x63,
            0x61, 0x73, 0x74]),
           .Value 24 (some [0x5F, 0x74, 0x63, 0x70]),
           .Value 29 (some [0x6C, 0x6F, 0x63, 0x61, 0x6C]),
           .Value 35 none],
         q_response_type := .QM, q_type := .Typ .PTR,
         q_class := .Class .Invalid }]
    answers := [], name_servers := [], additional_records := [] }

/-- C3 counterexample: the claim says a question whose class field
bytes are `80 01` parses as QCLASS = IN with QU = true.  On the
Googlecast datagram the code instead returns QU = false (QM) and
QCLASS = Class Invalid: the QU flag is never read from the class field,
and the class value is decoded from all 16 bits. -/
theorem c3_googlecast_class_8001_not_qu :
    Dns.parse googlecastData = Dns.PResult.ok googlecastMessage ∧
    googlecastMessage.queries.map Dns.Query.q_response_type =
      [Dns.QuestionResponseType.QM] ∧
    googlecastMessage.queries.map Dns.Query.q_class =
      [Dns.QClass.Class Dns.Class.Invalid] := by
  refine ⟨by decide, rfl, rfl⟩

/-- C3 (amended): the QU/QM flag of a parsed question equals the high
bit of the FIRST BYTE OF THE 16-BIT TYPE FIELD (QU when the bit is 1)
and the q_type value is decoded from the remaining 15 bits, while the
class field is decoded from all 16 of its bits with no QU extraction —
so class bytes `80 01` parse as `Class Invalid`, and type bytes
`00 0C` still give PTR. -/
theorem c3_qu_bit_from_type_field :
    (∀ b0 b1 : Nat, (Dns.parse_q_type b0 b1).1 =
      if Nat.testBit b0 7 then Dns.QuestionResponseType.QU
      else Dns.QuestionResponseType.QM) ∧
    Dns.parse_q_class 128 1 = Dns.QClass.Class Dns.Class.Invalid ∧
    (Dns.parse_q_type 0 12).2 = Dns.QType.Typ Dns.DnsType.PTR := by
  refine ⟨?_, by decide, by decide⟩
  intro b0 b1
  show Dns.parse_q_response_type b0 = _
  unfold Dns.parse_q_response_type
  have h : Nat.land 128 b0 = 128 ↔ Nat.testBit b0 7 = true := by
    have h128 : (128 : Nat) = 2 ^ 7 := by norm_num
    rw [show Nat.land 128 b0 = 128 &&& b0 from rfl, Nat.land_comm, h128,
      Nat.and_two_pow]
    cases hb : Nat.testBit b0 7 <;> simp [hb]
  by_cases hb : Nat.testBit b0 7
  · rw [if_pos (h.mpr hb), if_pos hb]
  · rw [if_neg (fun hc => hb (h.mp hc)), if_neg hb]

/-- Claim C4's datagram: a valid 12-byte header declaring QDCOUNT = 1
followed by `C0 0C 00 01 00 01` at offset 12 — the name is a
compression pointer to offset 12, its own offset. -/
def selfPointerData : List Nat :=
  [0x00, 0x00, 0x00, 0x00, 0x00, 0x01, 0x00, 0x00, 0x00, 0x00, 0x00, 0x00,
   0xC0, 0x0C, 0x00, 0x01, 0x00, 0x01]

/-- What the code actually produces for `selfPointerData`: the question
parses successfully, its name being the single unresolved pointer label
`Pointer 12 12`. -/
def selfPointerMessage : Dns.Message :=
  { header :=
      { id := 0, query_or_response := .Query, operation_code := .Query,
        operation_code_value := 0, authoritative_answer := .NotAuthoritative,
        truncation := .NotTruncated, recursion_desired := .RecursionNotDesired,
        recursion_available := .RecursionNotAvailable, z := 0,
        response_code := .NoError, response_code_value := 0,
        question_count := 1, answer_count := 0, name_server_count := 0,
        additional_count := 0 }
    queries :=
      [{ values := [.Pointer 12 12], q_response_type := .QM,
         q_type := .Typ .A, q_class := .Class .IN }]
    answers := [], name_servers := [], additional_records := [] }

/-- C4 counterexample: the claim says the self-pointer datagram is
rejected with an error (BadPointer or PointerLoop).  The code instead
parses it successfully: the question's name is returned as the
unresolved pointer label `Pointer 12 12`. -/
theorem c4_self_pointer_datagram_parses_ok :
    Dns.parse selfPointerData = Dns.PResult.ok selfPointerMessage ∧
    selfPointerMessage.queries.map Dns.Query.values = [[Dns.Label.Pointer 12 12]] := by
  refine ⟨by decide, rfl⟩

/-- C4 (amended): the parser performs no validation of compression
pointer targets.  `parse_label_pointer` accepts any two available bytes
and returns the 14-bit value `(63 & b0) << 8 | b1` as the target,
without ever comparing it to the pointer's own offset; the name scan
then ends at that pointer label, leaving it unresolved. -/
theorem c4_pointer_target_unvalidated :
    ∀ (off b0 b1 : Nat) (rest : List Nat),
      Dns.parse_label_pointer off (b0 :: b1 :: rest) =
        Except.ok (Dns.Label.Pointer off ((Nat.land 63 b0) <<< 8 ||| b1)) :=
  fun _ _ _ _ => rfl

/-- Claim C5's input: a name of four 63-byte labels plus the root label
— resolved length 4 × 64 + 1 = 257 bytes, over the 255-byte limit the
claim asserts. -/
def overlongNameData : List Nat :=
  (63 :: List.replicate 63 97) ++ (63 :: List.replicate 63 97) ++
  (63 :: List.replicate 63 97) ++ (63 :: List.replicate 63 97) ++ [0]

/-- The labels the code returns for `overlongNameData`. -/
def overlongNameLabels : List Dns.Label :=
  [.Value 0 (some (List.replicate 63 97)),
   .Value 64 (some (List.replicate 63 97)),
   .Value 128 (some (List.replicate 63 97)),
   .Value 192 (some (List.replicate 63 97)),
   .Value 256 none]

set_option maxRecDepth 4000 in
/-- C5 counterexample: the claim says a name whose resolved length
exceeds 255 bytes fails with NameTooLong.  The code parses the 257-byte
name successfully. -/
theorem c5_overlong_name_parses_ok :
    Dns.parse_name 0 overlongNameData = Except.ok overlongNameLabels ∧
    255 < Dns.nameSize overlongNameLabels := by
  refine ⟨by decide, by decide⟩

/-- C5 (amended): the name decoder enforces only the per-label 63-byte
limit — every value label of a successful scan carries 1..=63 bytes —
and no total-length limit exists; indeed the error type has no
NameTooLong variant at all (only HeaderError, QueryLabelError,
QueryError and ResourceRecordError). -/
theorem c5_only_label_limit_enforced :
    (∀ (start : Nat) (data : List Nat) (labels : List Dns.Label),
      Dns.parse_name start data = Except.ok labels →
      ∀ (o : Nat) (v : List Nat),
        Dns.Label.Value o (some v) ∈ labels → 1 ≤ v.length ∧ v.length ≤ 63) ∧
    (∀ e : Dns.ParseError,
      (∃ s, e = Dns.ParseError.HeaderError s) ∨
      (∃ s, e = Dns.ParseError.QueryLabelError s) ∨
      (∃ s, e = Dns.ParseError.QueryError s) ∨
      (∃ s, e = Dns.ParseError.ResourceRecordError s)) := by
  constructor
  · intro start data labels h o v hmem
    unfold Dns.parse_name at h
    by_cases hd : data.length = 0
    · rw [if_pos hd] at h; cases h
    · rw [if_neg hd] at h
      exact (Dns.parse_name_go_spec data.length start data labels h).2.2.2.2 o v hmem
  · intro e
    cases e with
    | HeaderError s => exact Or.inl ⟨s, rfl⟩
    | QueryLabelError s => exact Or.inr (Or.inl ⟨s, rfl⟩)
    | QueryError s => exact Or.inr (Or.inr (Or.inl ⟨s, rfl⟩))
    | ResourceRecordError s => exact Or.inr (Or.inr (Or.inr ⟨s, rfl⟩))

/-- C5 witness: the general label-size bound applied to the concrete
name "a" — its single value label holds between 1 and 63 bytes. -/
theorem c5_only_label_limit_enforced_witness :
    1 ≤ ([97] : List Nat).length ∧ ([97] : List Nat).length ≤ 63 :=
  c5_only_label_limit_enforced.1 0 [1, 97, 0]
    [Dns.Label.Value 0 (some [97]), Dns.Label.Value 2 none] (by decide)
    0 [97] (by decide)

/-- C6 counterexample: the claim says a length label whose declared
bytes are available is accepted regardless of byte content.  The
single-byte label `0x80` is not valid UTF-8 and the code rejects it
with the mapped `Utf8Error` message, so byte content IS a cause of
parse failure. -/
theorem c6_non_utf8_label_rejected :
    Dns.parse_name 0 [1, 128, 0] =
      Except.error (Dns.ParseError.QueryLabelError
        "invalid utf-8 sequence of 1 bytes from index 0") := by decide

/-- C6 (amended): the name decoder accepts a length label only when its
bytes contain no 0x00 octet and form valid UTF-8 (Rust
`std::str::from_utf8` validation); any accepted label content is
exactly the declared 1..=63 bytes of the input. -/
theorem c6_label_acceptance_requires_utf8 (off c : Nat) (rest v : List Nat)
    (h : Dns.parse_label_value off (c :: rest) =
      Except.ok (Dns.Label.Value off (some v))) :
    v.contains 0 = false ∧ Dns.utf8Go 0 v = none ∧ v = rest.take c ∧
      1 ≤ c ∧ c ≤ 63 := by
  simp only [Dns.parse_label_value] at h
  by_cases hb0 : c = 0
  · rw [if_pos hb0] at h
    injection h with h
    cases h
  · rw [if_neg hb0] at h
    by_cases h63 : 63 < c
    · rw [if_pos h63] at h; cases h
    · rw [if_neg h63] at h
      by_cases hlen : rest.length < c
      · rw [if_pos hlen] at h; cases h
      · rw [if_neg hlen] at h
        by_cases hz : (rest.take c).contains 0
        · rw [if_pos hz] at h; cases h
        · rw [if_neg hz] at h
          cases hu : Dns.utf8Go 0 (rest.take c) with
          | none =>
            rw [hu] at h
            injection h with h
            injection h with _ h
            injection h with h
            subst h
            exact ⟨by simpa using hz, hu, rfl, by omega, by omega⟩
          | some e => rw [hu] at h; cases h

/-- C6 witness: the general acceptance conditions applied to the
concrete two-byte label "ab". -/
theorem c6_label_acceptance_requires_utf8_witness :
    ([97, 98] : List Nat).contains 0 = false ∧
      Dns.utf8Go 0 [97, 98] = none ∧
      ([97, 98] : List Nat) = ([97, 98] : List Nat).take 2 ∧
      1 ≤ 2 ∧ 2 ≤ 63 :=
  c6_label_acceptance_requires_utf8 0 2 [97, 98] [97, 98] (by decide)

/-- C7 counterexample: the claim says every parsed TXT RDATA is decoded
as separate <length-byte, bytes> character-strings.  On the region
`02 61 62 01 63` (two character-strings "ab" and "c") the code returns
ONE string holding the five raw bytes, length bytes included — not the
two strings, nor even their concatenation. -/
theorem c7_txt_rdata_single_string :
    Rr.parse_resource_record_data_txt 0 5 [2, 97, 98, 1, 99] =
      Dns.PResult.ok (Rr.ResourceRecordData.TXT [2, 97, 98, 1, 99]) ∧
    specTxtCharacterStrings 5 [2, 97, 98, 1, 99] = some [[97, 98], [99]] ∧
    ([2, 97, 98, 1, 99] : List Nat) ≠ [97, 98] ++ [99] := by
  refine ⟨by decide, by decide, by decide⟩

/-- C7 (amended): whenever the RDATA region fits in the input, the TXT
decoder returns a single string consisting of the raw RDLENGTH bytes of
the region verbatim (each byte cast to a char by `to_ascii`); the
<length-byte, bytes> character-strings are never separated. -/
theorem c7_txt_rdata_verbatim (offset len : Nat) (data : List Nat)
    (h : offset + len ≤ data.length) :
    Rr.parse_resource_record_data_txt offset len data =
      Dns.PResult.ok (Rr.ResourceRecordData.TXT ((data.drop offset).take len)) := by
  unfold Rr.parse_resource_record_data_txt Dns.sliceRange
  rw [if_pos ⟨Nat.le_add_right _ _, h⟩]
  simp [Dns.PResult.bind, Nat.add_sub_cancel_left]

/-- C7 witness: the verbatim decoding at a concrete region. -/
theorem c7_txt_rdata_verbatim_witness :
    Rr.parse_resource_record_data_txt 1 2 [9, 8, 7, 6] =
      Dns.PResult.ok (Rr.ResourceRecordData.TXT [8, 7]) := by
  have h := c7_txt_rdata_verbatim 1 2 [9, 8, 7, 6] (by decide)
  simpa using h

/-- C8: on every datagram `parse` accepts, the four sections have
exactly the lengths the header declares: the section loops run once per
declared count and propagate any failure, so a success carries
`QDCOUNT` queries, `ANCOUNT` answers, `NSCOUNT` name-server records and
`ARCOUNT` additional records. -/
theorem c8_section_lengths_match_counts (data : List Nat) (msg : Dns.Message)
    (h : Dns.parse data = Dns.PResult.ok msg) :
    msg.queries.length = msg.header.question_count ∧
    msg.answers.length = msg.header.answer_count ∧
    msg.name_servers.length = msg.header.name_server_count ∧
    msg.additional_records.length = msg.header.additional_count := by
  unfold Dns.parse at h
  obtain ⟨header, hh, h⟩ := Dns.PResult.bind_ok h
  obtain ⟨s1, hs1, h⟩ := Dns.PResult.bind_ok h
  obtain ⟨queries, hq, h⟩ := Dns.PResult.bind_ok h
  obtain ⟨s2, hs2, h⟩ := Dns.PResult.bind_ok h
  obtain ⟨answers, ha, h⟩ := Dns.PResult.bind_ok h
  obtain ⟨s3, hs3, h⟩ := Dns.PResult.bind_ok h
  obtain ⟨name_servers, hn, h⟩ := Dns.PResult.bind_ok h
  obtain ⟨s4, hs4, h⟩ := Dns.PResult.bind_ok h
  obtain ⟨additional, har, h⟩ := Dns.PResult.bind_ok h
  injection h with h
  subst h
  exact ⟨Dns.parse_queries_go_len s1 header.question_count 0 12 queries hq,
    Dns.parse_resource_records_go_len s2 header.answer_count 0 _ answers ha,
    Dns.parse_resource_records_go_len s3 header.name_server_count 0 _ name_servers hn,
    Dns.parse_resource_records_go_len s4 header.additional_count 0 _ additional har⟩

/-- The message produced for a 12-byte all-zero, header-only
datagram. -/
def headerOnlyMessage : Dns.Message :=
  { header :=
      { id := 0, query_or_response := .Query, operation_code := .Query,
        operation_code_value := 0, authoritative_answer := .NotAuthoritative,
        truncation := .NotTruncated, recursion_desired := .RecursionNotDesired,
        recursion_available := .RecursionNotAvailable, z := 0,
        response_code := .NoError, response_code_value := 0,
        question_count := 0, answer_count := 0, name_server_count := 0,
        additional_count := 0 }
    queries := [], answers := [], name_servers := [], additional_records := [] }

/-- C8 witness: the header-only all-zero datagram parses successfully
into a message with four empty sections, and the general theorem
applies to it. -/
theorem c8_section_lengths_match_counts_witness :
    Dns.parse (List.replicate 12 0) = Dns.PResult.ok headerOnlyMessage ∧
    (headerOnlyMessage.queries.length = headerOnlyMessage.header.question_count ∧
     headerOnlyMessage.answers.length = headerOnlyMessage.header.answer_count ∧
     headerOnlyMessage.name_servers.length = headerOnlyMessage.header.name_server_count ∧
     headerOnlyMessage.additional_records.length = headerOnlyMessage.header.additional_count) :=
  ⟨by decide,
   c8_section_lengths_match_counts (List.replicate 12 0) headerOnlyMessage (by decide)⟩

/-- C9: every datagram shorter than 12 bytes makes `parse` return the
short-header error — `HeaderError "Data is smaller than header"` — and
nothing else. -/
theorem c9_short_datagram_header_error (data : List Nat)
    (h : data.length < 12) :
    Dns.parse data =
      Dns.PResult.err (Dns.ParseError.HeaderError "Data is smaller than header") := by
  have hh : Dns.parse_header data =
      Except.error (Dns.ParseError.HeaderError "Data is smaller than header") := by
    unfold Dns.parse_header
    rw [if_pos h]
  unfold Dns.parse
  rw [hh]
  rfl

/-- C9 witness: eight zero bytes yield the short-header error. -/
theorem c9_short_datagram_header_error_witness :
    Dns.parse (List.replicate 8 0) =
      Dns.PResult.err (Dns.ParseError.HeaderError "Data is smaller than header") :=
  c9_short_datagram_header_error (List.replicate 8 0) (by decide)

/-- C10: the name scan terminates without any visited-offset set.  Its
loop needs at most `len(data)` iterations — any fuel of at least the
slice length yields the same result — and a successful scan never
follows a pointer: every returned label but the last is a non-terminal
value label, the last is the first pointer or root label encountered,
and the labels' sizes sum to at most `len(data)` (the scan reads at
most that many bytes). -/
theorem c10_parse_name_terminates_bounded :
    (∀ (fuel1 fuel2 off : Nat) (d : List Nat),
      d.length ≤ fuel1 → d.length ≤ fuel2 →
      Dns.parse_name_go fuel1 off d = Dns.parse_name_go fuel2 off d) ∧
    (∀ (start : Nat) (data : List Nat) (labels : List Dns.Label),
      Dns.parse_name start data = Except.ok labels →
      labels ≠ [] ∧
      (∀ l ∈ labels.dropLast, l.isTerminal = false) ∧
      (labels.getLastD (Dns.Label.Value 0 none)).isTerminal = true ∧
      Dns.nameSize labels ≤ data.length) := by
  constructor
  · exact fun fuel1 fuel2 off d h1 h2 =>
      Dns.parse_name_go_fuel_ext fuel1 fuel2 off d h1 h2
  · intro start data labels h
    unfold Dns.parse_name at h
    by_cases hd : data.length = 0
    · rw [if_pos hd] at h; cases h
    · rw [if_neg hd] at h
      obtain ⟨h1, h2, h3, h4, _⟩ :=
        Dns.parse_name_go_spec data.length start data labels h
      exact ⟨h1, h2, h3, h4⟩

/-- C10 witness: fuel irrelevance at a concrete slice, and the size
bound for the concrete name "abc". -/
theorem c10_parse_name_terminates_bounded_witness :
    Dns.parse_name_go 5 0 [0] = Dns.parse_name_go 9 0 [0] ∧
    Dns.nameSize [Dns.Label.Value 0 (some [97, 98, 99]), Dns.Label.Value 4 none] ≤ 5 :=
  ⟨c10_parse_name_terminates_bounded.1 5 9 0 [0] (by decide) (by decide),
   (c10_parse_name_terminates_bounded.2 0 [3, 97, 98, 99, 0]
     [Dns.Label.Value 0 (some [97, 98, 99]), Dns.Label.Value 4 none]
     (by decide)).2.2.2⟩
